import Mathlib

/-! # bblfsh-cli: the `main` function of `cmd/bblfsh-cli/main.go`

`main` parses its flags, asks a remote Babelfish service for the UAST of one
file (protocol v1 or v2), optionally filters the tree with an XPath query and
prints it as JSON or stores it as Protobuf.

The development embeds `main` as a pure function from a `World` (the answers of
every external collaborator: flag parser, client library, query engine,
encoders, file system) to an `Outcome` (the ordered trace of the external
effects `main` performed, and how the process ended).
-/

namespace BblfshCli

/-! ## Data model -/

/-- A Go `error`, represented by the text its `Error()` method returns (what
`%v` prints). -/
abbrev GoError := String

/-- A Go `[]byte`. -/
abbrev Bytes := List Nat

/-- The `opts` struct declared at the top of `main` (lines 30-37). -/
structure Opts where
  Host : String
  Language : String
  Query : String
  Mode : String
  V2 : Bool
  Out : String

/-- Modelled from the spec: the transformation mode enum `bblfsh.Mode` returned
by `bblfsh.ParseMode` (declared in the client library, not in this file). -/
inductive Mode where
  | semantic
  | annotated
  | native
  deriving DecidableEq

/-- Modelled from the spec: the v1 typed node `uast.Node` (internal type, token,
positional span, ordered list of owned children); its declaration lives in the
SDK, not in this file. -/
inductive UastNode where
  | mk (internalType : String) (token : String) (startOffset endOffset : Nat)
      (children : List UastNode)

/-- A Go `*uast.Node`: `none` is the nil pointer. -/
abbrev UastPtr := Option UastNode

/-- Modelled from the spec: the v1 response `protocol1.ParseResponse`, the typed
tree `UAST` together with its wrapper metadata; its declaration lives in the
SDK, not in this file. -/
structure ParseResponse where
  status : Nat
  errors : List String
  UAST : UastPtr
  language : String
  filename : String

/-- Modelled from the spec: the v2 generic node `nodes.Node` (object, array or
scalar); its declaration lives in the SDK, not in this file.  A value of this
type is a non-nil dynamic value: the scalar null is Go's nil interface, which
is no value of this type (see `External.nilValue`).  `array none` is the nil
slice `nodes.Array(nil)` (what `var arr nodes.Array` declares),
`array (some l)` a non-nil slice with the elements `l`. -/
inductive Node where
  | object (fields : List (String × Node))
  | array (elems : Option (List Node))
  | string (s : String)
  | int (i : Int)
  | uint (n : Nat)
  | bool (b : Bool)

/-- A `nodes.External` value as returned by `it.Node()`: the nil interface, a
value that is a `nodes.Node`, or a value of some other implementation. -/
inductive External where
  | nilValue
  | node (n : Node)
  | foreign (description : String)

/-- The dynamic values the variable `ast interface{}` (line 55) can be compared
with: a v2 node (`root`, line 84), a single `*uast.Node`, or a slice
`[]*uast.Node` (`nodes`, line 109; `none` is the nil slice). -/
inductive Ast where
  | generic (root : Node)
  | typed (root : UastPtr)
  | typedList (nodes : Option (List UastPtr))

/-- The request assembled by the builder chain
`Language(..).Filename(..).ReadFile(..)[.Mode(..)]` on a client connected to
`host` (lines 58-68 and 86-96). -/
structure ParseRequest where
  host : String
  language : String
  filename : String
  readFile : String
  mode : Option Mode

/-- The external collaborators of `main`: each field is the answer the
collaborator gives when `main` calls it. -/
structure World where
  /-- The `flags.Parse(&opts)` call: the filled options and the positional
  arguments, or an error (what the parser prints by itself is not recorded). -/
  flagsParse : Except GoError (Opts × List String)
  /-- The `bblfsh.NewClient(host)` call. -/
  newClient : String → Except GoError Unit
  /-- The `bblfsh.ParseMode(mode)` call. -/
  parseMode : String → Except GoError Mode
  /-- The `req.UAST()` call (v2 request): the root of the generic tree. -/
  uastV2 : ParseRequest → Except GoError Node
  /-- The `req.Do()` call (v1 request): the full response. -/
  doV1 : ParseRequest → Except GoError ParseResponse
  /-- The `tools.FilterXPath(root, query)` call: what the iterator yields, in order. -/
  filterXPath : Node → String → Except GoError (List External)
  /-- The `tools.Filter(node, query)` call. -/
  filter : UastPtr → String → Except GoError (Option (List UastPtr))
  /-- The `json.MarshalIndent(ast, "", "  ")` call. -/
  marshalIndent : Ast → Except GoError String
  /-- The `(*uast.Node).Marshal()` method. -/
  marshal : UastPtr → Except GoError Bytes
  /-- The `ioutil.WriteFile(name, data, 0644)` call: `none` is a nil error. -/
  writeFile : String → Bytes → Option GoError
  /-- The `filepath.Base` function. -/
  base : String → String
  /-- The rendering of a string by the `%q` verb. -/
  quote : String → String

/-- One external effect of a run, in the order `main` performs them. -/
inductive Event where
  | newClient (host : String)
  | requestV2 (req : ParseRequest)
  | requestV1 (req : ParseRequest)
  | queryV2 (root : Node) (query : String)
  | queryV1 (root : UastPtr) (query : String)
  | encodeJSON (value : Ast)
  | marshalUAST (res : Option ParseResponse)
  | writeFile (name : String) (data : Bytes)
  | stdout (text : String)
  | stderr (text : String)

/-- How the process ends: `os.Exit(code)` (falling off the end of `main` is
status 0) or a run-time panic. -/
inductive Exit where
  | code (n : Nat)
  | panic (reason : String)

/-- The observable result of one invocation. -/
structure Outcome where
  trace : List Event
  exit : Exit

/-! ## Operations -/

/-- The function `fatalf` (lines 142-145): the message, already formatted,
followed by a newline goes to the error stream and the process exits with
status 1.  `t` is the trace of the effects performed before the call. -/
def fatalf (t : List Event) (msg : String) : Outcome :=
  { trace := t ++ [Event.stderr (msg ++ "\n")], exit := Exit.code 1 }

/-- Lines 62-68 and 90-96: the mode given to the request builder.  An empty
`--mode` leaves the request without a mode, any other string goes through
`bblfsh.ParseMode`. -/
def requestMode (w : World) (mode : String) : Except GoError (Option Mode) :=
  if mode = "" then Except.ok none
  else
    match w.parseMode mode with
    | Except.error e => Except.error e
    | Except.ok m => Except.ok (some m)

/-- The request both protocols build (lines 58-61 and 86-89). -/
def buildRequest (opts : Opts) (filename : String) (mode : Option Mode) : ParseRequest :=
  { host := opts.Host, language := opts.Language, filename := filename,
    readFile := filename, mode := mode }

/-- Go's `append(arr, n)` on a `nodes.Array`: appending to the nil slice gives
a non-nil slice. -/
def appendNode (arr : Option (List Node)) (n : Node) : Option (List Node) :=
  match arr with
  | none => some [n]
  | some l => some (l ++ [n])

/-- The loop of lines 79-81 over what the iterator yields:
`arr = append(arr, it.Node().(nodes.Node))`.  The type assertion panics on a
yielded value that is not a `nodes.Node`; the error case carries the panic
text. -/
def collect : List External → Option (List Node) → Except String (Option (List Node))
  | [], arr => Except.ok arr
  | External.node n :: rest, arr => collect rest (appendNode arr n)
  | External.nilValue :: _, _ =>
      Except.error "interface conversion: interface is nil, not nodes.Node"
  | External.foreign d :: _, _ =>
      Except.error ("interface conversion: " ++ d ++ " is not nodes.Node")

/-- The variables live at line 111, when the output `switch` starts: the
effects so far, `ast` and `res`. -/
structure Parsed where
  trace : List Event
  ast : Ast
  res : Option ParseResponse

/-- The V2 branch, lines 58-84.  `t` is the trace so far; `res` stays nil. -/
def parseV2 (w : World) (opts : Opts) (filename : String) (t : List Event) :
    Except Outcome Parsed :=
  match requestMode w opts.Mode with
  | Except.error e => Except.error (fatalf t e)
  | Except.ok mode =>
    let req := buildRequest opts filename mode
    let t1 := t ++ [Event.requestV2 req]
    match w.uastV2 req with
    | Except.error e => Except.error (fatalf t1 ("couldn't parse " ++ filename ++ ": " ++ e))
    | Except.ok root =>
      if opts.Query ≠ "" then
        let t2 := t1 ++ [Event.queryV2 root opts.Query]
        match w.filterXPath root opts.Query with
        | Except.error e =>
            Except.error
              (fatalf t2 ("couldn't apply query " ++ w.quote opts.Query ++ ": " ++ e))
        | Except.ok yielded =>
          match collect yielded none with
          | Except.error reason => Except.error { trace := t2, exit := Exit.panic reason }
          | Except.ok arr => Except.ok { trace := t2, ast := Ast.generic (Node.array arr), res := none }
      else
        Except.ok { trace := t1, ast := Ast.generic root, res := none }

/-- The V1 branch, lines 86-109. -/
def parseV1 (w : World) (opts : Opts) (filename : String) (t : List Event) :
    Except Outcome Parsed :=
  match requestMode w opts.Mode with
  | Except.error e => Except.error (fatalf t e)
  | Except.ok mode =>
    let req := buildRequest opts filename mode
    let t1 := t ++ [Event.requestV1 req]
    match w.doV1 req with
    | Except.error e => Except.error (fatalf t1 ("couldn't parse " ++ filename ++ ": " ++ e))
    | Except.ok res =>
      if opts.Query ≠ "" then
        let t2 := t1 ++ [Event.queryV1 res.UAST opts.Query]
        match w.filter res.UAST opts.Query with
        | Except.error e =>
            Except.error
              (fatalf t2 ("couldn't apply query " ++ w.quote opts.Query ++ ": " ++ e))
        | Except.ok nodes => Except.ok { trace := t2, ast := Ast.typedList nodes, res := some res }
      else
        Except.ok { trace := t1, ast := Ast.typedList (some [res.UAST]), res := some res }

/-- Lines 55-110: the protocol is chosen by `opts.V2`. -/
def fetch (w : World) (opts : Opts) (filename : String) (t : List Event) :
    Except Outcome Parsed :=
  if opts.V2 = true then parseV2 w opts filename t else parseV1 w opts filename t

/-- The output `switch`, lines 112-139. -/
def output (w : World) (opts : Opts) (filename : String) (p : Parsed) : Outcome :=
  if opts.Out = "" ∨ opts.Out = "json" then
    let t1 := p.trace ++ [Event.encodeJSON p.ast]
    match w.marshalIndent p.ast with
    | Except.error e => fatalf t1 ("couldn't encode UAST: " ++ e)
    | Except.ok b => { trace := t1 ++ [Event.stdout (b ++ "\n")], exit := Exit.code 0 }
  else if opts.Out = "proto" then
    if opts.V2 = true ∨ opts.Query ≠ "" then
      fatalf p.trace ".pb output format is only supported for V1 requests without any queries"
    else
      let outFileName := "./" ++ w.base filename ++ ".pb"
      let t1 := p.trace ++ [Event.stderr ("Saving result to " ++ outFileName ++ "\n")]
      -- line 128: `res.UAST.Marshal()` dereferences `res`
      let t2 := t1 ++ [Event.marshalUAST p.res]
      match p.res with
      | none => { trace := t2, exit := Exit.panic "invalid memory address or nil pointer dereference" }
      | some res =>
        match w.marshal res.UAST with
        | Except.error e => fatalf t2 ("failed to encode UAST to Protobuf: " ++ e)
        | Except.ok protoUast =>
          -- line 128 declares `err` afresh; after the check of line 129 it is nil
          let err : Option GoError := none
          -- line 133: the error `ioutil.WriteFile` returns is not assigned to anything
          let t3 := t2 ++ [Event.writeFile outFileName protoUast]
          match err with
          | some e => fatalf t3 ("failed to write Protobuf to " ++ outFileName ++ ", " ++ e)
          | none => { trace := t3, exit := Exit.code 0 }
  else
    fatalf p.trace ("unsupported output format: " ++ w.quote opts.Out)

/-- The function `main` (lines 29-140). -/
def main (w : World) : Outcome :=
  match w.flagsParse with
  | Except.error e => fatalf [] ("couldn't parse flags: " ++ e)
  | Except.ok (opts, args) =>
    match args with
    | [] => fatalf [] "missing file to parse"
    | _ :: _ :: _ => fatalf [] "couldn't parse more than a file at a time"
    | [filename] =>
      let t := [Event.newClient opts.Host]
      match w.newClient opts.Host with
      | Except.error e => fatalf t ("couldn't create client: " ++ e)
      | Except.ok _ =>
        match fetch w opts filename t with
        | Except.error out => out
        | Except.ok p => output w opts filename p

/-! ## Observations on an outcome -/

/-- Everything written to the error stream, in order. -/
def Outcome.stderr (o : Outcome) : String :=
  o.trace.foldl (fun acc e => match e with
    | Event.stderr s => acc ++ s
    | _ => acc) ""

/-- Everything written to standard output, in order. -/
def Outcome.stdout (o : Outcome) : String :=
  o.trace.foldl (fun acc e => match e with
    | Event.stdout s => acc ++ s
    | _ => acc) ""

/-- The files handed to `ioutil.WriteFile`, with their contents. -/
def Outcome.files (o : Outcome) : List (String × Bytes) :=
  o.trace.filterMap (fun e => match e with
    | Event.writeFile name data => some (name, data)
    | _ => none)

/-- The values handed to `json.MarshalIndent`. -/
def Outcome.encoded (o : Outcome) : List Ast :=
  o.trace.filterMap (fun e => match e with
    | Event.encodeJSON v => some v
    | _ => none)

/-- Whether a query (`tools.Filter` or `tools.FilterXPath`) was evaluated. -/
def Outcome.queried (o : Outcome) : Bool :=
  o.trace.any (fun e => match e with
    | Event.queryV1 _ _ => true
    | Event.queryV2 _ _ => true
    | _ => false)

/-- Whether a parse request was sent to the remote service. -/
def Outcome.requested (o : Outcome) : Bool :=
  o.trace.any (fun e => match e with
    | Event.requestV1 _ => true
    | Event.requestV2 _ => true
    | _ => false)

/-- The values of `res` at each evaluation of `res.UAST.Marshal()`. -/
def Outcome.dereferenced (o : Outcome) : List (Option ParseResponse) :=
  o.trace.filterMap (fun e => match e with
    | Event.marshalUAST r => some r
    | _ => none)

/-! ## Concrete collaborators

Stand-ins for the library functions, used to build the concrete invocations on
which the theorems below are evaluated.  `main` itself never looks inside
them. -/

/-- The `filepath.Base` function on a Unix path: trailing slashes are dropped,
then everything up to the last slash. -/
def filepathBase (path : String) : String :=
  if path = "" then "."
  else
    let trimmed := path.toList.reverse.dropWhile (fun c => c = '/')
    let last := (trimmed.takeWhile (fun c => c ≠ '/')).reverse
    if last = [] then "/" else String.mk last

/-- The escape sequences `encoding/json` and `%q` share for the characters of
the scenarios (quote, backslash, newline, carriage return, tab). -/
def escapeChar (c : Char) : String :=
  if c = '"' then "\\\""
  else if c = '\\' then "\\\\"
  else if c = '\n' then "\\n"
  else if c = '\r' then "\\r"
  else if c = '\t' then "\\t"
  else String.singleton c

/-- A double-quoted string, as `%q` and `encoding/json` write one. -/
def quoted (s : String) : String :=
  "\"" ++ String.join (s.toList.map escapeChar) ++ "\""

/-- The `bblfsh.ParseMode` function on the three mode names of the `--mode` flag. -/
def parseModeName (s : String) : Except GoError Mode :=
  if s = "semantic" then Except.ok Mode.semantic
  else if s = "annotated" then Except.ok Mode.annotated
  else if s = "native" then Except.ok Mode.native
  else Except.error ("unsupported mode: " ++ quoted s)

/-- Indentation of `json.MarshalIndent(_, "", "  ")` at nesting depth `d`. -/
def pad (d : Nat) : String :=
  String.join (List.replicate d "  ")

/-- A JSON array or object with the rendered `members`, closed at depth `d`;
`opening` and `closing` are the brackets. -/
def bracketed (opening closing : String) (d : Nat) (members : List String) : String :=
  match members with
  | [] => opening ++ closing
  | _ => opening ++ "\n" ++ pad (d + 1) ++ String.intercalate (",\n" ++ pad (d + 1)) members
      ++ "\n" ++ pad d ++ closing

mutual
/-- What `encoding/json` writes for a v2 node at depth `d`: a nil slice is
`null`, a non-nil slice an array, a map an object. -/
def jsonNode (d : Nat) : Node → String
  | Node.object fields => bracketed "\x7b" "\x7d" d (jsonFields (d + 1) fields)
  | Node.array none => "null"
  | Node.array (some l) => bracketed "[" "]" d (jsonElems (d + 1) l)
  | Node.string s => quoted s
  | Node.int i => toString i
  | Node.uint n => toString n
  | Node.bool b => if b then "true" else "false"
/-- The members of an object, each at depth `d`. -/
def jsonFields (d : Nat) : List (String × Node) → List String
  | [] => []
  | (k, v) :: rest => (quoted k ++ ": " ++ jsonNode d v) :: jsonFields d rest
/-- The elements of an array, each at depth `d`. -/
def jsonElems (d : Nat) : List Node → List String
  | [] => []
  | n :: rest => jsonNode d n :: jsonElems d rest
end

mutual
/-- What `encoding/json` writes for a v1 node at depth `d`, over the fields of
`UastNode`. -/
def jsonUast (d : Nat) : UastNode → String
  | UastNode.mk internalType token startOffset endOffset children =>
      bracketed "\x7b" "\x7d" d
        [ "\"InternalType\": " ++ quoted internalType,
          "\"Children\": " ++ bracketed "[" "]" (d + 1) (jsonUastList (d + 2) children),
          "\"Token\": " ++ quoted token,
          "\"StartOffset\": " ++ toString startOffset,
          "\"EndOffset\": " ++ toString endOffset ]
/-- The elements of a child list, each at depth `d`. -/
def jsonUastList (d : Nat) : List UastNode → List String
  | [] => []
  | n :: rest => jsonUast d n :: jsonUastList d rest
end

/-- What `encoding/json` writes for a `*uast.Node`: `null` for the nil pointer. -/
def jsonUastPtr (d : Nat) (p : UastPtr) : String :=
  match p with
  | none => "null"
  | some n => jsonUast d n

/-- A stand-in for `json.MarshalIndent(ast, "", "  ")`. -/
def encodingJson (ast : Ast) : Except GoError String :=
  match ast with
  | Ast.generic root => Except.ok (jsonNode 0 root)
  | Ast.typed root => Except.ok (jsonUastPtr 0 root)
  | Ast.typedList none => Except.ok "null"
  | Ast.typedList (some l) => Except.ok (bracketed "[" "]" 0 (l.map (jsonUastPtr 1)))

/-- A length-prefixed field of a tag-length-value encoding. -/
def wireField (tag : Nat) (payload : Bytes) : Bytes :=
  tag :: payload.length :: payload

mutual
/-- A stand-in for the Protobuf encoding of a v1 node: tagged, length-prefixed
fields in declaration order. -/
def wireNode : UastNode → Bytes
  | UastNode.mk internalType token startOffset endOffset children =>
      wireField 10 (internalType.toList.map Char.toNat) ++ wireChildren children ++
        wireField 34 (token.toList.map Char.toNat) ++ [40, startOffset, 48, endOffset]
/-- The repeated `children` field. -/
def wireChildren : List UastNode → Bytes
  | [] => []
  | n :: rest => wireField 26 (wireNode n) ++ wireChildren rest
end

/-- A stand-in for `(*uast.Node).Marshal()`: the nil node encodes as no bytes. -/
def wireMarshal (p : UastPtr) : Except GoError Bytes :=
  match p with
  | none => Except.ok []
  | some n => Except.ok (wireNode n)

/-! ## Concrete invocations -/

/-- The v1 tree of the scenarios: a file with three identifiers. -/
def sampleTree : UastNode :=
  UastNode.mk "File" "" 0 5
    [ UastNode.mk "Identifier" "a" 0 1 [],
      UastNode.mk "Identifier" "b" 2 3 [],
      UastNode.mk "Identifier" "c" 4 5 [] ]

/-- The v1 response of the scenarios. -/
def sampleResponse : ParseResponse :=
  { status := 0, errors := [], UAST := some sampleTree, language := "python",
    filename := "foo.py" }

/-- The same tree under different wrapper metadata. -/
def otherResponse : ParseResponse :=
  { status := 0, errors := ["warning: tabs"], UAST := some sampleTree, language := "python3",
    filename := "foo.py" }

/-- One identifier of the v2 tree. -/
def identifier (name : String) : Node :=
  Node.object [("@type", Node.string "Identifier"), ("Name", Node.string name)]

/-- The v2 tree of the scenarios: a file with three identifiers. -/
def sampleRoot : Node :=
  Node.object
    [ ("@type", Node.string "File"),
      ("body", Node.array (some [identifier "a", identifier "b", identifier "c"])) ]

/-- The options after flag parsing with the defaults of lines 31-36. -/
def defaultOpts : Opts :=
  { Host := "localhost:9432", Language := "", Query := "", Mode := "", V2 := false,
    Out := "json" }

/-- An invocation on `foo.py` with the options `opts` in which every
collaborator succeeds: the service returns the sample tree, the query
`//Identifier` matches the three identifiers and any other query nothing. -/
def scenario (opts : Opts) : World :=
  { flagsParse := Except.ok (opts, ["foo.py"]),
    newClient := fun _ => Except.ok (),
    parseMode := parseModeName,
    uastV2 := fun _ => Except.ok sampleRoot,
    doV1 := fun _ => Except.ok sampleResponse,
    filterXPath := fun _ q =>
      if q = "//Identifier" then
        Except.ok [External.node (identifier "a"), External.node (identifier "b"),
          External.node (identifier "c")]
      else Except.ok [],
    filter := fun root q =>
      match root with
      | some (UastNode.mk _ _ _ _ children) =>
          if q = "//Identifier" then Except.ok (some (children.map some)) else Except.ok none
      | none => Except.ok none,
    marshalIndent := encodingJson,
    marshal := wireMarshal,
    writeFile := fun _ _ => none,
    base := filepathBase,
    quote := quoted }

/-- The invocation `scenario opts` in which the client is created but the
service cannot be reached when the request is sent: both parse requests return
a transport error. -/
def unreachableHost (opts : Opts) : World :=
  { scenario opts with
    uastV2 := fun _ => Except.error "rpc error: code = Unavailable desc = connection refused",
    doV1 := fun _ => Except.error "rpc error: code = Unavailable desc = connection refused" }

/-- The invocation `scenario opts` on a disk that rejects the write. -/
def diskFull (opts : Opts) : World :=
  { scenario opts with writeFile := fun _ _ => some "no space left on device" }

/-- The invocation `scenario opts` in which the service answers with the same
tree under other wrapper metadata. -/
def otherMetadata (opts : Opts) : World :=
  { scenario opts with doV1 := fun _ => Except.ok otherResponse }

/-- The flags `--out proto`. -/
def protoOpts : Opts :=
  { defaultOpts with Out := "proto" }

/-- The flags `--out proto --query //Identifier`. -/
def protoQueryOpts : Opts :=
  { defaultOpts with Out := "proto", Query := "//Identifier" }

/-- The flags `--v2 --query //Missing`: a valid query that matches nothing. -/
def zeroMatchOpts : Opts :=
  { defaultOpts with V2 := true, Query := "//Missing" }

/-- The flags `--v2 --out ""`: an empty output format. -/
def emptyOutOpts : Opts :=
  { defaultOpts with V2 := true, Out := "" }

/-- The flags `--out xml`. -/
def xmlOpts : Opts :=
  { defaultOpts with Out := "xml" }

/-- The flags `--v2 --query /`: a query that selects the root itself. -/
def rootQueryOpts : Opts :=
  { defaultOpts with V2 := true, Query := "/" }

/-- The invocation `scenario opts` in which the query engine yields the root it
was given as the only match. -/
def yieldsRoot (opts : Opts) : World :=
  { scenario opts with filterXPath := fun root _ => Except.ok [External.node root] }

/-! ## Shared lemmas -/

/-- Once the flags are parsed with exactly one file and the client is created,
`main` is the protocol branch followed by the output switch. -/
theorem main_of_started (w : World) (opts : Opts) (filename : String)
    (hflags : w.flagsParse = Except.ok (opts, [filename]))
    (hclient : w.newClient opts.Host = Except.ok ()) :
    main w =
      match fetch w opts filename [Event.newClient opts.Host] with
      | Except.error out => out
      | Except.ok p => output w opts filename p := by
  simp [main, hflags, hclient]

/-- When every yielded value is a node the loop never panics and appends them
one by one. -/
theorem collect_nodes (ms : List Node) (arr : Option (List Node)) :
    collect (ms.map External.node) arr = Except.ok (ms.foldl appendNode arr) := by
  induction ms generalizing arr with
  | nil => rfl
  | cons m rest ih => simp [collect, ih]

/-- Appending to a non-nil slice keeps it non-nil and extends it at the end. -/
theorem foldl_appendNode_some (ms l : List Node) :
    ms.foldl appendNode (some l) = some (l ++ ms) := by
  induction ms generalizing l with
  | nil => simp
  | cons m rest ih => simp [appendNode, ih]

/-- The elements of the slice built from nil are the appended nodes, in order. -/
theorem foldl_appendNode_getD (ms : List Node) :
    (ms.foldl appendNode none).getD [] = ms := by
  cases ms with
  | nil => rfl
  | cons m rest => simp [appendNode, foldl_appendNode_some]

/-- The slice built from nil is still nil exactly when nothing was appended. -/
theorem foldl_appendNode_eq_none (ms : List Node) :
    ms.foldl appendNode none = none ↔ ms = [] := by
  cases ms with
  | nil => simp
  | cons m rest => simp [appendNode, foldl_appendNode_some]

/-! ## The claims -/

/-- C1: with `--out proto`, when `--v2` is set or the query is non-empty and
the request (and the query, if there is one) succeeds, the run ends in the
unsupported-output failure: exit status 1, exactly the message
".pb output format is only supported for V1 requests without any queries" on
the error stream, nothing on standard output and no file written. -/
theorem C1_proto_with_v2_or_query_is_unsupported (w : World) (opts : Opts)
    (filename : String) (mode : Option Mode)
    (hflags : w.flagsParse = Except.ok (opts, [filename]))
    (hclient : w.newClient opts.Host = Except.ok ())
    (hmode : requestMode w opts.Mode = Except.ok mode)
    (hout : opts.Out = "proto")
    (hguard : opts.V2 = true ∨ opts.Query ≠ "")
    (hok : if opts.V2 = true then
        ∃ root, w.uastV2 (buildRequest opts filename mode) = Except.ok root ∧
          (opts.Query ≠ "" →
            ∃ ms : List Node, w.filterXPath root opts.Query = Except.ok (ms.map External.node))
      else
        ∃ res, w.doV1 (buildRequest opts filename mode) = Except.ok res ∧
          (opts.Query ≠ "" → ∃ ns, w.filter res.UAST opts.Query = Except.ok ns)) :
    (main w).exit = Exit.code 1 ∧
    (main w).stderr =
      ".pb output format is only supported for V1 requests without any queries\n" ∧
    (main w).stdout = "" ∧
    (main w).files = [] := by
  rw [main_of_started w opts filename hflags hclient]
  by_cases hv : opts.V2 = true
  · rw [if_pos hv] at hok
    obtain ⟨root, hroot, hq⟩ := hok
    by_cases hquery : opts.Query = ""
    · simp [fetch, parseV2, hmode, hroot, hquery, output, hout, hv, fatalf, Outcome.stderr,
        Outcome.stdout, Outcome.files]
    · obtain ⟨ms, hms⟩ := hq hquery
      simp [fetch, parseV2, hmode, hroot, hquery, hms, collect_nodes, output, hout, hv, fatalf,
        Outcome.stderr, Outcome.stdout, Outcome.files]
  · rw [if_neg hv] at hok
    obtain ⟨res, hres, hq⟩ := hok
    have hquery : opts.Query ≠ "" := by
      rcases hguard with h | h
      · exact absurd h hv
      · exact h
    obtain ⟨ns, hns⟩ := hq hquery
    simp [fetch, parseV1, hmode, hres, hquery, hns, output, hout, hv, fatalf,
      Outcome.stderr, Outcome.stdout, Outcome.files]

/-- C1 at `--v2 --out proto --query //Identifier` on `foo.py`. -/
theorem C1_proto_with_v2_or_query_is_unsupported_witness :
    (main (scenario { defaultOpts with V2 := true, Out := "proto", Query := "//Identifier" })).exit
      = Exit.code 1 ∧
    (main (scenario { defaultOpts with V2 := true, Out := "proto", Query := "//Identifier" })).stderr
      = ".pb output format is only supported for V1 requests without any queries\n" ∧
    (main (scenario { defaultOpts with V2 := true, Out := "proto", Query := "//Identifier" })).stdout
      = "" ∧
    (main (scenario { defaultOpts with V2 := true, Out := "proto", Query := "//Identifier" })).files
      = [] :=
  C1_proto_with_v2_or_query_is_unsupported
    (scenario { defaultOpts with V2 := true, Out := "proto", Query := "//Identifier" })
    { defaultOpts with V2 := true, Out := "proto", Query := "//Identifier" } "foo.py" none
    rfl rfl rfl rfl (Or.inl rfl)
    (by
      rw [if_pos rfl]
      exact ⟨sampleRoot, rfl, fun _ =>
        ⟨[identifier "a", identifier "b", identifier "c"], rfl⟩⟩)

/-- C2 fails in V1 mode: on a successful V1 parse with an empty query the value
given to the JSON encoder is a one-element slice holding the root the service
returned, not that root itself. -/
theorem C2_v1_root_is_wrapped_counterexample :
    (scenario defaultOpts).flagsParse = Except.ok (defaultOpts, ["foo.py"]) ∧
    defaultOpts.V2 = false ∧ defaultOpts.Query = "" ∧
    (scenario defaultOpts).doV1 (buildRequest defaultOpts "foo.py" none)
      = Except.ok sampleResponse ∧
    (main (scenario defaultOpts)).exit = Exit.code 0 ∧
    (main (scenario defaultOpts)).encoded = [Ast.typedList (some [sampleResponse.UAST])] ∧
    (main (scenario defaultOpts)).encoded ≠ [Ast.typed sampleResponse.UAST] := by
  refine ⟨rfl, rfl, rfl, rfl, rfl, rfl, ?_⟩
  intro h
  cases h

/-- C2, amended: on a successful parse with an empty query, the variable `ast`
at the output switch (and with it the value given to the JSON encoder when the
format is json) is, in V2 mode, the root returned by the service itself,
unchanged and unwrapped, and, in V1 mode, the one-element slice whose only
element is the root `res.UAST` of the response. -/
theorem C2_empty_query_passes_root (w : World) (opts : Opts) (filename : String)
    (mode : Option Mode) (root : Node) (res : ParseResponse)
    (hflags : w.flagsParse = Except.ok (opts, [filename]))
    (hclient : w.newClient opts.Host = Except.ok ())
    (hmode : requestMode w opts.Mode = Except.ok mode)
    (hquery : opts.Query = "")
    (hreq : if opts.V2 = true then w.uastV2 (buildRequest opts filename mode) = Except.ok root
      else w.doV1 (buildRequest opts filename mode) = Except.ok res) :
    Parsed.ast <$> fetch w opts filename [Event.newClient opts.Host] =
        Except.ok (if opts.V2 = true then Ast.generic root
          else Ast.typedList (some [res.UAST])) ∧
    (opts.Out = "" ∨ opts.Out = "json" →
      (main w).encoded = [if opts.V2 = true then Ast.generic root
        else Ast.typedList (some [res.UAST])]) := by
  rw [main_of_started w opts filename hflags hclient]
  by_cases hv : opts.V2 = true
  · rw [if_pos hv] at hreq
    refine ⟨?_, ?_⟩
    · simp [fetch, hv, parseV2, hmode, hreq, hquery]
    · intro hout
      simp only [fetch, hv, parseV2, hmode, hreq, hquery, output, hout]
      cases h : w.marshalIndent (Ast.generic root) <;> simp [h, fatalf, Outcome.encoded]
  · rw [if_neg hv] at hreq
    refine ⟨?_, ?_⟩
    · simp [fetch, hv, parseV1, hmode, hreq, hquery]
    · intro hout
      simp only [fetch, hv, parseV1, hmode, hreq, hquery, output, hout]
      cases h : w.marshalIndent (Ast.typedList (some [res.UAST])) <;>
        simp [h, fatalf, Outcome.encoded]

/-- C2, amended, at `foo.py` with `--v2` and at `foo.py` without flags. -/
theorem C2_empty_query_passes_root_witness :
    (main (scenario { defaultOpts with V2 := true })).encoded = [Ast.generic sampleRoot] ∧
    (main (scenario defaultOpts)).encoded = [Ast.typedList (some [some sampleTree])] :=
  ⟨(C2_empty_query_passes_root (scenario { defaultOpts with V2 := true })
      { defaultOpts with V2 := true } "foo.py" none sampleRoot sampleResponse
      rfl rfl rfl rfl (by rw [if_pos rfl]; rfl)).2 (Or.inr rfl),
   (C2_empty_query_passes_root (scenario defaultOpts) defaultOpts "foo.py" none sampleRoot
      sampleResponse rfl rfl rfl rfl (by rw [if_neg (by decide)]; rfl)).2 (Or.inr rfl)⟩

/-- C3 fails in its last clause: with `--v2 --query /` the iterator yields the
root itself, so the array given to the JSON encoder has the original root as
its one element. -/
theorem C3_root_can_be_a_match_counterexample :
    rootQueryOpts.V2 = true ∧ rootQueryOpts.Query ≠ "" ∧
    (yieldsRoot rootQueryOpts).uastV2 (buildRequest rootQueryOpts "foo.py" none)
      = Except.ok sampleRoot ∧
    (yieldsRoot rootQueryOpts).filterXPath sampleRoot rootQueryOpts.Query
      = Except.ok [External.node sampleRoot] ∧
    (main (yieldsRoot rootQueryOpts)).exit = Exit.code 0 ∧
    (main (yieldsRoot rootQueryOpts)).encoded
      = [Ast.generic (Node.array (some [sampleRoot]))] ∧
    sampleRoot ∈ (some [sampleRoot]).getD [] := by
  refine ⟨rfl, by decide, rfl, rfl, rfl, rfl, List.Mem.head _⟩

/-- C3, amended: in V2 mode with a non-empty query that evaluates successfully
and whose iterator yields the nodes `ms` in that order, the variable `ast` at
the output switch (and the value given to the JSON encoder when the format is
json) is an array node `nodes.Array` whose elements are exactly `ms`, in the
same order, nothing added, dropped or duplicated; the array is the nil slice
exactly when there is no match, and the original root is an element exactly
when the iterator yielded it. -/
theorem C3_v2_query_result_is_array_of_matches (w : World) (opts : Opts) (filename : String)
    (mode : Option Mode) (root : Node) (ms : List Node)
    (hflags : w.flagsParse = Except.ok (opts, [filename]))
    (hclient : w.newClient opts.Host = Except.ok ())
    (hmode : requestMode w opts.Mode = Except.ok mode)
    (hv2 : opts.V2 = true)
    (hquery : opts.Query ≠ "")
    (hreq : w.uastV2 (buildRequest opts filename mode) = Except.ok root)
    (hms : w.filterXPath root opts.Query = Except.ok (ms.map External.node)) :
    ∃ arr : Option (List Node),
      Parsed.ast <$> fetch w opts filename [Event.newClient opts.Host] =
        Except.ok (Ast.generic (Node.array arr)) ∧
      (opts.Out = "" ∨ opts.Out = "json" →
        (main w).encoded = [Ast.generic (Node.array arr)]) ∧
      arr.getD [] = ms ∧
      (arr = none ↔ ms = []) ∧
      (root ∈ arr.getD [] ↔ root ∈ ms) := by
  refine ⟨ms.foldl appendNode none, ?_, ?_, foldl_appendNode_getD ms,
    foldl_appendNode_eq_none ms, ?_⟩
  · simp [fetch, hv2, parseV2, hmode, hreq, hquery, hms, collect_nodes]
  · intro hout
    rw [main_of_started w opts filename hflags hclient]
    simp only [fetch, hv2, parseV2, hmode, hreq, hquery, hms, collect_nodes, output, hout]
    cases h : w.marshalIndent (Ast.generic (Node.array (ms.foldl appendNode none))) <;>
      simp [h, hquery, fatalf, Outcome.encoded]
  · rw [foldl_appendNode_getD]

/-- C3, amended, at `--v2 --query //Identifier` on the file with three
identifiers. -/
theorem C3_v2_query_result_is_array_of_matches_witness :
    ∃ arr : Option (List Node),
      Parsed.ast <$> fetch (scenario { defaultOpts with V2 := true, Query := "//Identifier" })
          { defaultOpts with V2 := true, Query := "//Identifier" } "foo.py"
          [Event.newClient "localhost:9432"] =
        Except.ok (Ast.generic (Node.array arr)) ∧
      ("json" = "" ∨ "json" = "json" →
        (main (scenario { defaultOpts with V2 := true, Query := "//Identifier" })).encoded
          = [Ast.generic (Node.array arr)]) ∧
      arr.getD [] = [identifier "a", identifier "b", identifier "c"] ∧
      (arr = none ↔ [identifier "a", identifier "b", identifier "c"] = []) ∧
      (sampleRoot ∈ arr.getD [] ↔
        sampleRoot ∈ [identifier "a", identifier "b", identifier "c"]) :=
  C3_v2_query_result_is_array_of_matches
    (scenario { defaultOpts with V2 := true, Query := "//Identifier" })
    { defaultOpts with V2 := true, Query := "//Identifier" } "foo.py" none sampleRoot
    [identifier "a", identifier "b", identifier "c"] rfl rfl rfl rfl (by decide) rfl rfl

/-- C4: when the remote parse request returns an error, in either protocol and
with any query and output format, the process exits with status 1, the error
stream holds "couldn't parse <file>: <text of the error>", no query is
evaluated, nothing reaches standard output or the JSON encoder and no file is
written. -/
theorem C4_request_error_is_fatal (w : World) (opts : Opts) (filename : String)
    (mode : Option Mode) (e : GoError)
    (hflags : w.flagsParse = Except.ok (opts, [filename]))
    (hclient : w.newClient opts.Host = Except.ok ())
    (hmode : requestMode w opts.Mode = Except.ok mode)
    (hreq : if opts.V2 = true then w.uastV2 (buildRequest opts filename mode) = Except.error e
      else w.doV1 (buildRequest opts filename mode) = Except.error e) :
    (main w).exit = Exit.code 1 ∧
    (main w).stderr = "couldn't parse " ++ filename ++ ": " ++ e ++ "\n" ∧
    (main w).queried = false ∧
    (main w).stdout = "" ∧
    (main w).encoded = [] ∧
    (main w).files = [] := by
  rw [main_of_started w opts filename hflags hclient]
  by_cases hv : opts.V2 = true
  · rw [if_pos hv] at hreq
    simp [fetch, hv, parseV2, hmode, hreq, fatalf, Outcome.stderr, Outcome.stdout,
      Outcome.files, Outcome.queried, Outcome.encoded]
  · rw [if_neg hv] at hreq
    simp [fetch, hv, parseV1, hmode, hreq, fatalf, Outcome.stderr, Outcome.stdout,
      Outcome.files, Outcome.queried, Outcome.encoded]

/-- C4 at `--v2 --query //Missing` against an unreachableHost host. -/
theorem C4_request_error_is_fatal_witness :
    (main (unreachableHost zeroMatchOpts)).exit = Exit.code 1 ∧
    (main (unreachableHost zeroMatchOpts)).stderr =
      "couldn't parse " ++ "foo.py" ++ ": " ++
        "rpc error: code = Unavailable desc = connection refused" ++ "\n" ∧
    (main (unreachableHost zeroMatchOpts)).queried = false ∧
    (main (unreachableHost zeroMatchOpts)).stdout = "" ∧
    (main (unreachableHost zeroMatchOpts)).encoded = [] ∧
    (main (unreachableHost zeroMatchOpts)).files = [] :=
  C4_request_error_is_fatal (unreachableHost zeroMatchOpts) zeroMatchOpts "foo.py" none
    "rpc error: code = Unavailable desc = connection refused" rfl rfl rfl
    (Eq.mpr (if_pos rfl) rfl)

/-- C5 does not hold of the code: in a V1 run with `--out proto` and no query whose
request and marshaling succeed while `ioutil.WriteFile` returns an error, the
error is dropped: the error stream holds only the "Saving result to" line and
the process exits with status 0. -/
theorem C5_write_error_is_dropped :
    (diskFull protoOpts).doV1 (buildRequest protoOpts "foo.py" none) = Except.ok sampleResponse ∧
    (diskFull protoOpts).marshal sampleResponse.UAST = Except.ok (wireNode sampleTree) ∧
    (diskFull protoOpts).writeFile "./foo.py.pb" (wireNode sampleTree)
      = some "no space left on device" ∧
    (main (diskFull protoOpts)).files = [("./foo.py.pb", wireNode sampleTree)] ∧
    (main (diskFull protoOpts)).stderr = "Saving result to ./foo.py.pb\n" ∧
    (main (diskFull protoOpts)).exit = Exit.code 0 := by
  refine ⟨rfl, rfl, rfl, rfl, rfl, rfl⟩

/-- C6 fails: two successful V1 runs with `--out proto` whose responses carry
the same tree under different wrapper metadata write the same bytes, the
encoding of the tree `res.UAST` alone; the metadata is not in the file. -/
theorem C6_metadata_is_not_written_counterexample :
    (scenario protoOpts).doV1 (buildRequest protoOpts "foo.py" none) = Except.ok sampleResponse ∧
    (otherMetadata protoOpts).doV1 (buildRequest protoOpts "foo.py" none)
      = Except.ok otherResponse ∧
    sampleResponse ≠ otherResponse ∧
    sampleResponse.UAST = otherResponse.UAST ∧
    (scenario protoOpts).marshal sampleResponse.UAST = Except.ok (wireNode sampleTree) ∧
    (main (scenario protoOpts)).exit = Exit.code 0 ∧
    (main (otherMetadata protoOpts)).exit = Exit.code 0 ∧
    (main (scenario protoOpts)).files = [("./foo.py.pb", wireNode sampleTree)] ∧
    (main (otherMetadata protoOpts)).files = (main (scenario protoOpts)).files := by
  refine ⟨rfl, rfl, ?_, rfl, rfl, rfl, rfl, rfl, rfl⟩
  intro h
  have hl : sampleResponse.language = otherResponse.language := by rw [h]
  revert hl
  decide

/-- C6, amended: in a V1 run with `--out proto` and no query whose request,
marshaling and file write succeed, the one file written is
`./<base of the file name>.pb` and its bytes are the binary serialization
`res.UAST.Marshal()` of the tree node of the response alone; `res` at that call
is the response the service returned, and the run exits with status 0.  Runs
whose file write fails are outside this statement. -/
theorem C6_proto_file_holds_the_marshalled_tree (w : World) (opts : Opts) (filename : String)
    (mode : Option Mode) (res : ParseResponse) (bytes : Bytes)
    (hflags : w.flagsParse = Except.ok (opts, [filename]))
    (hclient : w.newClient opts.Host = Except.ok ())
    (hmode : requestMode w opts.Mode = Except.ok mode)
    (hout : opts.Out = "proto")
    (hv1 : opts.V2 = false)
    (hquery : opts.Query = "")
    (hreq : w.doV1 (buildRequest opts filename mode) = Except.ok res)
    (hmarshal : w.marshal res.UAST = Except.ok bytes)
    (_hwrite : w.writeFile ("./" ++ w.base filename ++ ".pb") bytes = none) :
    (main w).files = [("./" ++ w.base filename ++ ".pb", bytes)] ∧
    (main w).dereferenced = [some res] ∧
    (main w).stderr = "Saving result to " ++ ("./" ++ w.base filename ++ ".pb") ++ "\n" ∧
    (main w).stdout = "" ∧
    (main w).exit = Exit.code 0 := by
  rw [main_of_started w opts filename hflags hclient]
  simp [fetch, hv1, parseV1, hmode, hreq, hquery, output, hout, hmarshal, Outcome.files,
    Outcome.dereferenced, Outcome.stderr, Outcome.stdout]

/-- C6, amended, at `--out proto` on `foo.py`. -/
theorem C6_proto_file_holds_the_marshalled_tree_witness :
    (main (scenario protoOpts)).files
      = [("./" ++ (scenario protoOpts).base "foo.py" ++ ".pb", wireNode sampleTree)] ∧
    (main (scenario protoOpts)).dereferenced = [some sampleResponse] ∧
    (main (scenario protoOpts)).stderr
      = "Saving result to " ++ ("./" ++ (scenario protoOpts).base "foo.py" ++ ".pb") ++ "\n" ∧
    (main (scenario protoOpts)).stdout = "" ∧
    (main (scenario protoOpts)).exit = Exit.code 0 :=
  C6_proto_file_holds_the_marshalled_tree (scenario protoOpts) protoOpts "foo.py" none
    sampleResponse (wireNode sampleTree) rfl rfl rfl rfl rfl rfl rfl rfl rfl

/-- C7 does not hold of the code: in a V2 run with json output and a valid query that
matches nothing, the loop never appends, so the value given to the JSON encoder
is the nil slice `nodes.Array(nil)` and not an empty array; `encoding/json`
writes a nil slice as `null`, so standard output is `null` and a newline, where
an empty array would have given `[]`.  The run exits with status 0. -/
theorem C7_zero_matches_encode_the_nil_array :
    (scenario zeroMatchOpts).filterXPath sampleRoot zeroMatchOpts.Query = Except.ok [] ∧
    (main (scenario zeroMatchOpts)).exit = Exit.code 0 ∧
    (main (scenario zeroMatchOpts)).encoded = [Ast.generic (Node.array none)] ∧
    (main (scenario zeroMatchOpts)).encoded ≠ [Ast.generic (Node.array (some []))] ∧
    (main (scenario zeroMatchOpts)).stdout = "null\n" ∧
    (scenario zeroMatchOpts).marshalIndent (Ast.generic (Node.array (some [])))
      = Except.ok "[]" := by
  refine ⟨rfl, rfl, rfl, ?_, rfl, rfl⟩
  intro h
  cases h

/-- C8 fails: with `--out proto --query //Identifier` the parse request is sent
before the format is looked at.  Against an unreachableHost host the run ends in
the request failure, not in the unsupported-output failure; against a
reachable host the unsupported-output failure comes after the request and the
query. -/
theorem C8_request_precedes_the_format_check_counterexample :
    protoQueryOpts.Out = "proto" ∧ protoQueryOpts.Query ≠ "" ∧
    (main (unreachableHost protoQueryOpts)).requested = true ∧
    (main (unreachableHost protoQueryOpts)).exit = Exit.code 1 ∧
    (main (unreachableHost protoQueryOpts)).stderr
      = "couldn't parse foo.py: rpc error: code = Unavailable desc = connection refused\n" ∧
    (main (unreachableHost protoQueryOpts)).stderr
      ≠ ".pb output format is only supported for V1 requests without any queries\n" ∧
    (main (scenario protoQueryOpts)).stderr
      = ".pb output format is only supported for V1 requests without any queries\n" ∧
    (main (scenario protoQueryOpts)).requested = true ∧
    (main (scenario protoQueryOpts)).queried = true := by
  refine ⟨rfl, by decide, rfl, rfl, rfl, by decide, rfl, rfl, rfl⟩

/-- C8, amended: with `--out proto` and a non-empty query, when the parse
request and the query evaluation succeed, the run consists of the client
creation, the parse request, the query evaluation and then the
unsupported-output message on the error stream, in that order; it exits with
status 1 and writes no file. -/
theorem C8_proto_with_query_fails_after_request_and_query (w : World) (opts : Opts)
    (filename : String) (mode : Option Mode) (root : Node) (res : ParseResponse)
    (hflags : w.flagsParse = Except.ok (opts, [filename]))
    (hclient : w.newClient opts.Host = Except.ok ())
    (hmode : requestMode w opts.Mode = Except.ok mode)
    (hout : opts.Out = "proto")
    (hquery : opts.Query ≠ "")
    (hok : if opts.V2 = true then
        w.uastV2 (buildRequest opts filename mode) = Except.ok root ∧
          ∃ ms : List Node, w.filterXPath root opts.Query = Except.ok (ms.map External.node)
      else
        w.doV1 (buildRequest opts filename mode) = Except.ok res ∧
          ∃ ns, w.filter res.UAST opts.Query = Except.ok ns) :
    (main w).trace =
      [ Event.newClient opts.Host,
        (if opts.V2 = true then Event.requestV2 (buildRequest opts filename mode)
          else Event.requestV1 (buildRequest opts filename mode)),
        (if opts.V2 = true then Event.queryV2 root opts.Query
          else Event.queryV1 res.UAST opts.Query),
        Event.stderr
          ".pb output format is only supported for V1 requests without any queries\n" ] ∧
    (main w).exit = Exit.code 1 ∧
    (main w).files = [] := by
  rw [main_of_started w opts filename hflags hclient]
  by_cases hv : opts.V2 = true
  · rw [if_pos hv] at hok
    obtain ⟨hroot, ms, hms⟩ := hok
    simp [fetch, parseV2, hmode, hroot, hquery, hms, collect_nodes, output, hout, hv, fatalf,
      Outcome.files]
  · rw [if_neg hv] at hok
    obtain ⟨hres, ns, hns⟩ := hok
    simp [fetch, parseV1, hmode, hres, hquery, hns, output, hout, hv, fatalf, Outcome.files]

/-- C8, amended, at `--out proto --query //Identifier` on `foo.py`. -/
theorem C8_proto_with_query_fails_after_request_and_query_witness :
    (main (scenario protoQueryOpts)).trace =
      [ Event.newClient "localhost:9432",
        Event.requestV1 (buildRequest protoQueryOpts "foo.py" none),
        Event.queryV1 (some sampleTree) "//Identifier",
        Event.stderr
          ".pb output format is only supported for V1 requests without any queries\n" ] ∧
    (main (scenario protoQueryOpts)).exit = Exit.code 1 ∧
    (main (scenario protoQueryOpts)).files = [] :=
  C8_proto_with_query_fails_after_request_and_query (scenario protoQueryOpts) protoQueryOpts
    "foo.py" none sampleRoot sampleResponse rfl rfl rfl rfl (by decide)
    (Eq.mpr (if_neg (by decide)) ⟨rfl, _, rfl⟩)

/-- C9 fails for the empty format string: `--out ""` is handled by the json
case, so a run whose request succeeds prints the JSON document and exits with
status 0. -/
theorem C9_empty_format_is_json_counterexample :
    emptyOutOpts.Out ≠ "json" ∧ emptyOutOpts.Out ≠ "proto" ∧
    (main (scenario emptyOutOpts)).exit = Exit.code 0 ∧
    (main (scenario emptyOutOpts)).stderr = "" ∧
    (main (scenario emptyOutOpts)).encoded = [Ast.generic sampleRoot] ∧
    (main (scenario emptyOutOpts)).stdout
      = (main (scenario { emptyOutOpts with Out := "json" })).stdout ∧
    (main (scenario emptyOutOpts)).stdout ≠ "" := by
  refine ⟨by decide, by decide, rfl, rfl, rfl, rfl, by decide⟩

/-- C9, amended: for every output format string other than "json", "proto" and
the empty string, a run whose request and query succeed ends in the
unsupported-output failure: exit status 1, the message
"unsupported output format: " followed by the quoted format on the error
stream, nothing on standard output, nothing given to the JSON encoder and no
file written. -/
theorem C9_unknown_format_is_unsupported (w : World) (opts : Opts) (filename : String)
    (mode : Option Mode)
    (hflags : w.flagsParse = Except.ok (opts, [filename]))
    (hclient : w.newClient opts.Host = Except.ok ())
    (hmode : requestMode w opts.Mode = Except.ok mode)
    (hempty : opts.Out ≠ "")
    (hjson : opts.Out ≠ "json")
    (hproto : opts.Out ≠ "proto")
    (hok : if opts.V2 = true then
        ∃ root, w.uastV2 (buildRequest opts filename mode) = Except.ok root ∧
          (opts.Query ≠ "" →
            ∃ ms : List Node, w.filterXPath root opts.Query = Except.ok (ms.map External.node))
      else
        ∃ res, w.doV1 (buildRequest opts filename mode) = Except.ok res ∧
          (opts.Query ≠ "" → ∃ ns, w.filter res.UAST opts.Query = Except.ok ns)) :
    (main w).exit = Exit.code 1 ∧
    (main w).stderr = "unsupported output format: " ++ w.quote opts.Out ++ "\n" ∧
    (main w).stdout = "" ∧
    (main w).encoded = [] ∧
    (main w).files = [] := by
  rw [main_of_started w opts filename hflags hclient]
  by_cases hv : opts.V2 = true
  · rw [if_pos hv] at hok
    obtain ⟨root, hroot, hq⟩ := hok
    by_cases hquery : opts.Query = ""
    · simp [fetch, parseV2, hmode, hroot, hquery, output, hempty, hjson, hproto, hv, fatalf,
        Outcome.stderr, Outcome.stdout, Outcome.files, Outcome.encoded]
    · obtain ⟨ms, hms⟩ := hq hquery
      simp [fetch, parseV2, hmode, hroot, hquery, hms, collect_nodes, output, hempty, hjson,
        hproto, hv, fatalf, Outcome.stderr, Outcome.stdout, Outcome.files, Outcome.encoded]
  · rw [if_neg hv] at hok
    obtain ⟨res, hres, hq⟩ := hok
    by_cases hquery : opts.Query = ""
    · simp [fetch, parseV1, hmode, hres, hquery, output, hempty, hjson, hproto, hv, fatalf,
        Outcome.stderr, Outcome.stdout, Outcome.files, Outcome.encoded]
    · obtain ⟨ns, hns⟩ := hq hquery
      simp [fetch, parseV1, hmode, hres, hquery, hns, output, hempty, hjson, hproto, hv,
        fatalf, Outcome.stderr, Outcome.stdout, Outcome.files, Outcome.encoded]

/-- C9, amended, at `--out xml` on `foo.py`. -/
theorem C9_unknown_format_is_unsupported_witness :
    (main (scenario xmlOpts)).exit = Exit.code 1 ∧
    (main (scenario xmlOpts)).stderr
      = "unsupported output format: " ++ (scenario xmlOpts).quote "xml" ++ "\n" ∧
    (main (scenario xmlOpts)).stdout = "" ∧
    (main (scenario xmlOpts)).encoded = [] ∧
    (main (scenario xmlOpts)).files = [] :=
  C9_unknown_format_is_unsupported (scenario xmlOpts) xmlOpts "foo.py" none rfl rfl rfl
    (by decide) (by decide) (by decide)
    (Eq.mpr (if_neg (by decide)) ⟨sampleResponse, rfl, fun h => absurd rfl h⟩)

/-- The protocol branches never evaluate `res.UAST.Marshal()`; after the V2
branch `res` is nil, after the V1 branch it is the response of `req.Do()`. -/
theorem fetch_dereferenced (w : World) (opts : Opts) (filename : String) (host : String) :
    match fetch w opts filename [Event.newClient host] with
    | Except.error out => out.dereferenced = []
    | Except.ok p =>
        (Outcome.mk p.trace (Exit.code 0)).dereferenced = [] ∧
        ((opts.V2 = true ∧ p.res = none) ∨
         (opts.V2 = false ∧ ∃ mode res, requestMode w opts.Mode = Except.ok mode ∧
            w.doV1 (buildRequest opts filename mode) = Except.ok res ∧ p.res = some res)) := by
  by_cases hv : opts.V2 = true
  · rcases hmode : requestMode w opts.Mode with e | mode
    · simp [fetch, hv, parseV2, hmode, fatalf, Outcome.dereferenced]
    · rcases hreq : w.uastV2 (buildRequest opts filename mode) with e | root
      · simp [fetch, hv, parseV2, hmode, hreq, fatalf, Outcome.dereferenced]
      · by_cases hq : opts.Query = ""
        · simp [fetch, hv, parseV2, hmode, hreq, hq, Outcome.dereferenced]
        · rcases hf : w.filterXPath root opts.Query with e | ys
          · simp [fetch, hv, parseV2, hmode, hreq, hq, hf, fatalf, Outcome.dereferenced]
          · rcases hc : collect ys none with e | arr <;>
              simp [fetch, hv, parseV2, hmode, hreq, hq, hf, hc, Outcome.dereferenced]
  · have hv2 : opts.V2 = false := by simpa using hv
    rcases hmode : requestMode w opts.Mode with e | mode
    · simp [fetch, hv2, parseV1, hmode, fatalf, Outcome.dereferenced]
    · rcases hreq : w.doV1 (buildRequest opts filename mode) with e | res
      · simp [fetch, hv2, parseV1, hmode, hreq, fatalf, Outcome.dereferenced]
      · by_cases hq : opts.Query = ""
        · simp [fetch, hv2, parseV1, hmode, hreq, hq, Outcome.dereferenced]
        · rcases hf : w.filter res.UAST opts.Query with e | ns <;>
            simp [fetch, hv2, parseV1, hmode, hreq, hq, hf, fatalf, Outcome.dereferenced]

/-- The output switch evaluates `res.UAST.Marshal()` at most once, and only for
format proto with `--v2` unset and an empty query. -/
theorem output_dereferenced (w : World) (opts : Opts) (filename : String) (p : Parsed)
    (hp : (Outcome.mk p.trace (Exit.code 0)).dereferenced = []) :
    (output w opts filename p).dereferenced = [] ∨
    ((output w opts filename p).dereferenced = [p.res] ∧ opts.Out = "proto" ∧
      opts.V2 = false ∧ opts.Query = "") := by
  simp only [Outcome.dereferenced] at hp
  by_cases hj : opts.Out = "" ∨ opts.Out = "json"
  · left
    rcases hm : w.marshalIndent p.ast with e | b <;>
      simp [output, hj, hm, fatalf, Outcome.dereferenced, List.filterMap_append, hp]
  · by_cases hproto : opts.Out = "proto"
    · by_cases hg : opts.V2 = true ∨ opts.Query ≠ ""
      · left
        simp [output, hj, hproto, hg, fatalf, Outcome.dereferenced, List.filterMap_append, hp]
      · right
        have hv : opts.V2 = false := by
          cases hb : opts.V2
          · rfl
          · exact absurd (Or.inl hb) hg
        have hq : opts.Query = "" := by
          by_contra hne
          exact hg (Or.inr hne)
        refine ⟨?_, hproto, hv, hq⟩
        rcases hres : p.res with _ | res
        · simp [output, hproto, hv, hq, hres, Outcome.dereferenced,
            List.filterMap_append, hp]
        · rcases hm : w.marshal res.UAST with e | bytes <;>
            simp [output, hproto, hv, hq, hres, hm, fatalf, Outcome.dereferenced,
              List.filterMap_append, hp]
    · left
      simp [output, hj, hproto, fatalf, Outcome.dereferenced, List.filterMap_append, hp]

/-- C10: whenever a run of `main` evaluates `res.UAST.Marshal()`, the variable
`res` holds the response of a V1 request that returned without error: the run
has `--v2` unset, an empty query and format proto, and `res` is what `req.Do()`
returned.  In particular `res` is never nil there, so no V2 run reaches the
dereference. -/
theorem C10_marshal_dereferences_only_a_v1_response (w : World) (r : Option ParseResponse)
    (h : r ∈ (main w).dereferenced) :
    ∃ opts filename mode res,
      w.flagsParse = Except.ok (opts, [filename]) ∧
      opts.V2 = false ∧ opts.Query = "" ∧ opts.Out = "proto" ∧
      requestMode w opts.Mode = Except.ok mode ∧
      w.doV1 (buildRequest opts filename mode) = Except.ok res ∧
      r = some res := by
  rcases hflags : w.flagsParse with e | ⟨opts, args⟩
  · simp [main, hflags, fatalf, Outcome.dereferenced] at h
  · rcases args with _ | ⟨filename, _ | ⟨second, rest⟩⟩
    · simp [main, hflags, fatalf, Outcome.dereferenced] at h
    · rcases hclient : w.newClient opts.Host with e | u
      · simp [main, hflags, hclient, fatalf, Outcome.dereferenced] at h
      · rw [main_of_started w opts filename hflags hclient] at h
        have hf := fetch_dereferenced w opts filename opts.Host
        rcases hfetch : fetch w opts filename [Event.newClient opts.Host] with out | p
        · rw [hfetch] at h hf
          simp only at h hf
          rw [hf] at h
          cases h
        · rw [hfetch] at h hf
          simp only at h hf
          obtain ⟨hnone, hres⟩ := hf
          rcases output_dereferenced w opts filename p hnone with ho | ⟨ho, hproto, hv, hq⟩
          · rw [ho] at h
            cases h
          · rw [ho] at h
            have hr : r = p.res := by simpa using h
            rcases hres with ⟨hv2, _⟩ | ⟨_, mode, res, hmode, hdo, hpres⟩
            · rw [hv] at hv2
              cases hv2
            · exact ⟨opts, filename, mode, res, rfl, hv, hq, hproto, hmode, hdo,
                by rw [hr, hpres]⟩
    · simp [main, hflags, fatalf, Outcome.dereferenced] at h

/-- C10 at `--out proto` on `foo.py`, where the dereference is reached. -/
theorem C10_marshal_dereferences_only_a_v1_response_witness :
    some sampleResponse ∈ (main (scenario protoOpts)).dereferenced ∧
    ∃ opts filename mode res,
      (scenario protoOpts).flagsParse = Except.ok (opts, [filename]) ∧
      opts.V2 = false ∧ opts.Query = "" ∧ opts.Out = "proto" ∧
      requestMode (scenario protoOpts) opts.Mode = Except.ok mode ∧
      (scenario protoOpts).doV1 (buildRequest opts filename mode) = Except.ok res ∧
      some sampleResponse = some res :=
  ⟨List.Mem.head _,
   C10_marshal_dereferences_only_a_v1_response (scenario protoOpts) (some sampleResponse)
    (List.Mem.head _)⟩

end BblfshCli
